import Mathlib

/-!
# Shallow embedding of the `snr_table.ipynb` batch program (ETC_notebooks)

The notebook builds a `Telescope` and a `Background` (with average geocoronal
emission added once), then for every AB magnitude in `np.arange(22, 29, 0.1)`
constructs a fresh `PointSource` with a uniform AB-magnitude spectrum over
`np.arange(90, 1200) nm`, a fresh `Photometry` object with the optimal
point-source aperture, and stores `calc_snr_or_t(snr=snr, reddening=0.09,
quiet=True)` into `times_to_reach_snrs[snr][ab_mag]` for each target S/N in
`[5, 10]`.  A final cell prints a header and displays
`pd.DataFrame(times_to_reach_snrs[snr]).round(2).T` for each target S/N.

The external `castor_etc` package is opaque to the notebook, so it is embedded
as an abstract record of deterministic, fallible operations (`ETC`).  Python
dictionaries are embedded as ordered association lists; the two inner
per-magnitude dictionaries live in an explicit heap of cells so that the
object identity produced by `times_to_one_snr.copy()` is visible in the model.
Floating-point magnitudes are idealised as exact rationals (22.0, 22.1, …,
28.9), matching the 70 values `np.arange(22, 29, 0.1)` produces.
-/

namespace ETCNB

/-- `AB_MAGS = np.arange(22, 29, 0.1)`: the 70 values 22.0, 22.1, …, 28.9,
idealised as exact rationals. -/
def AB_MAGS : List ℚ := (List.range 70).map (fun k => (220 + (k : ℚ)) / 10)

/-- `TARGET_SNRS = [5, 10]` (Python integers). -/
def TARGET_SNRS : List ℕ := [5, 10]

/-- `REDDENING = 0.09`, the E(B-V) used for every `calc_snr_or_t` call. -/
def REDDENING : ℚ := 9 / 100

/-- `wavelengths = np.arange(90, 1200) * u.nm`: the integers 90 … 1199 nm. -/
def wavelengths : List ℕ := List.range' 90 1110

/-! ## Python dictionaries as ordered association lists -/

/-- Lookup in a Python `dict`, embedded as an ordered association list. -/
def dictGet {K V : Type} [DecidableEq K] : List (K × V) → K → Option V
  | [], _ => none
  | kv :: rest, k => if kv.1 = k then some kv.2 else dictGet rest k

/-- `d[k] = v` on a Python `dict`: update in place when the key is present
(keeping insertion order), otherwise append the new binding at the end. -/
def dictSet {K V : Type} [DecidableEq K] (d : List (K × V)) (k : K) (v : V) :
    List (K × V) :=
  if k ∈ d.map Prod.fst then d.map (fun kv => if kv.1 = k then (k, v) else kv)
  else d ++ [(k, v)]

/-- `dict.fromkeys(ks)`: every key bound to `None`. -/
def dictFromkeys {K V : Type} (ks : List K) : List (K × Option V) :=
  ks.map (fun k => (k, none))

/-! ## The value of `times_to_reach_snrs`

`outer` maps each target S/N (a Python int) to a reference into `heap`, whose
cells hold the inner per-magnitude dictionaries.  The heap records the object
identity of the inner dictionaries: `times_to_one_snr.copy()` allocates a new
cell for each target S/N. -/

/-- State of the nested dictionary `times_to_reach_snrs`. -/
structure Tbl (ρ : Type) : Type where
  outer : List (ℕ × ℕ)
  heap : List (List (ℚ × Option ρ))
deriving DecidableEq

/-- `{snr: inner.copy() for snr in snrs}`: each step allocates a fresh heap
cell holding a copy of `inner` and binds the S/N key to it. -/
def buildOuter {ρ : Type} (inner : List (ℚ × Option ρ)) :
    List ℕ → Tbl ρ → Tbl ρ
  | [], t => t
  | snr :: rest, t =>
      buildOuter inner rest ⟨dictSet t.outer snr t.heap.length, t.heap ++ [inner]⟩

/-- The initial table for a given key list `ks`:
`times_to_one_snr = dict.fromkeys(ks)` followed by
`times_to_reach_snrs = {snr: times_to_one_snr.copy() for snr in TARGET_SNRS}`. -/
def initFor (ρ : Type) (ks : List ℚ) : Tbl ρ :=
  buildOuter (dictFromkeys ks) TARGET_SNRS ⟨[], []⟩

/-- The notebook's initial `times_to_reach_snrs`, keyed by `AB_MAGS`. -/
def tblInit (ρ : Type) : Tbl ρ := initFor ρ AB_MAGS

/-- Read `times_to_reach_snrs[snr][m]`: `none` when a key is missing,
`some none` when the slot still holds Python's `None`. -/
def tblGet {ρ : Type} (t : Tbl ρ) (snr : ℕ) (m : ℚ) : Option (Option ρ) :=
  match dictGet t.outer snr with
  | some r => dictGet (t.heap.getD r []) m
  | none => none

/-- Write `times_to_reach_snrs[snr][m] = v`.  The `none` branch (missing S/N
key, a `KeyError` in Python) is never reached by the program: it only writes
keys of `TARGET_SNRS`, all of which `initFor` binds. -/
def tblSet {ρ : Type} (t : Tbl ρ) (snr : ℕ) (m : ℚ) (v : ρ) : Tbl ρ :=
  match dictGet t.outer snr with
  | some r => ⟨t.outer, t.heap.set r (dictSet (t.heap.getD r []) m (some v))⟩
  | none => t

/-- Well-formed table: the outer dictionary binds S/N 5 and 10 to the two
distinct heap cells 0 and 1, and both inner dictionaries have key list `ks`. -/
def wfK {ρ : Type} (ks : List ℚ) (t : Tbl ρ) : Prop :=
  ∃ d5 d10 : List (ℚ × Option ρ),
    t.outer = [(5, 0), (10, 1)] ∧ t.heap = [d5, d10] ∧
    d5.map Prod.fst = ks ∧ d10.map Prod.fst = ks

/-! ## The external `castor_etc` interface

The notebook delegates every computation to the external package, so the
package is an abstract record of deterministic responses; each operation may
fail (`Except ε`).  State types for telescope, background, source and
photometry objects are abstract; `ρ` is the type of a `calc_snr_or_t` result
(in the real package, a per-passband mapping of times in seconds). -/

structure ETC (ε τ β σ φ ρ : Type) : Type where
  newTelescope : Except ε τ
  newBackground : Except ε β
  addGeocoronalEmission : β → String → Except ε β
  newPointSource : Except ε σ
  generateUniform : σ → List ℕ → ℚ → String → Except ε σ
  newPhotometry : τ → σ → β → Except ε φ
  useOptimalAperture : φ → Bool → Except ε φ
  calcSnrOrT : φ → ℕ → ℚ → Bool → Except ε ρ

variable {ε τ β σ φ ρ : Type}

/-! ## The batch program (notebook cells 3 and 5) -/

/-- Inner loop: `for snr in TARGET_SNRS:
times_to_reach_snrs[snr][ab_mag] = MyPhot.calc_snr_or_t(snr=snr,
reddening=REDDENING, quiet=True)`. -/
def runSnrs (lib : ETC ε τ β σ φ ρ) (p : φ) (m : ℚ) :
    List ℕ → Tbl ρ → Except ε (Tbl ρ)
  | [], acc => .ok acc
  | snr :: rest, acc => do
      let t ← lib.calcSnrOrT p snr REDDENING true
      runSnrs lib p m rest (tblSet acc snr m t)

/-- Body of the outer loop for one `ab_mag`: fresh `PointSource`, uniform
ABmag spectrum over `wavelengths`, fresh `Photometry` from the shared
telescope and background, optimal aperture, then the inner S/N loop. -/
def step (lib : ETC ε τ β σ φ ρ) (tel : τ) (bkg : β) (m : ℚ) (acc : Tbl ρ) :
    Except ε (Tbl ρ) := do
  let s ← lib.newPointSource
  let s2 ← lib.generateUniform s wavelengths m "ABmag"
  let p ← lib.newPhotometry tel s2 bkg
  let p2 ← lib.useOptimalAperture p true
  runSnrs lib p2 m TARGET_SNRS acc

/-- Outer loop: `for ab_mag in AB_MAGS`. -/
def runMags (lib : ETC ε τ β σ φ ρ) (tel : τ) (bkg : β) :
    List ℚ → Tbl ρ → Except ε (Tbl ρ)
  | [], acc => .ok acc
  | m :: rest, acc => do
      let acc2 ← step lib tel bkg m acc
      runMags lib tel bkg rest acc2

/-- The whole batch computation: `MyTelescope = Telescope()`,
`MyBackground = Background()`, `MyBackground.add_geocoronal_emission("avg")`,
then the magnitude loop starting from the freshly initialised table. -/
def runBatch (lib : ETC ε τ β σ φ ρ) : Except ε (Tbl ρ) := do
  let tel ← lib.newTelescope
  let bkg ← lib.newBackground
  let bkg2 ← lib.addGeocoronalEmission bkg "avg"
  runMags lib tel bkg2 AB_MAGS (tblInit ρ)

/-- The straight-line per-magnitude pipeline: the value `calc_snr_or_t`
returns for a fresh uniform-ABmag point source at magnitude `m` with the
optimal aperture, for target S/N `snr`. -/
def sourceResult (lib : ETC ε τ β σ φ ρ) (tel : τ) (bkg : β) (m : ℚ)
    (snr : ℕ) : Except ε ρ := do
  let s ← lib.newPointSource
  let s2 ← lib.generateUniform s wavelengths m "ABmag"
  let p ← lib.newPhotometry tel s2 bkg
  let p2 ← lib.useOptimalAperture p true
  lib.calcSnrOrT p2 snr REDDENING true

/-! ## The full unrolling of the batch loop (a straight-line program)

`stepU` is the loop-free body for one magnitude (the inner S/N loop unrolled
over `[5, 10]`), and `unrolledLoop` is the literal 70-fold sequence of those
bodies, one per magnitude of `AB_MAGS`, with no loop, branch or retry. -/

/-- Loop-free body for one magnitude: the four construction calls, then the
two `calc_snr_or_t` calls and the two dictionary stores, written out. -/
def stepU (lib : ETC ε τ β σ φ ρ) (tel : τ) (bkg : β) (m : ℚ) (acc : Tbl ρ) :
    Except ε (Tbl ρ) := do
  let s ← lib.newPointSource
  let s2 ← lib.generateUniform s wavelengths m "ABmag"
  let p ← lib.newPhotometry tel s2 bkg
  let p2 ← lib.useOptimalAperture p true
  let t5 ← lib.calcSnrOrT p2 5 REDDENING true
  let t10 ← lib.calcSnrOrT p2 10 REDDENING true
  .ok (tblSet (tblSet acc 5 m t5) 10 m t10)

/-- The magnitude loop fully unrolled: one straight-line block per magnitude
22.0, 22.1, …, 28.9, in program order. -/
def unrolledLoop (lib : ETC ε τ β σ φ ρ) (tel : τ) (bkg : β) (a0 : Tbl ρ) :
    Except ε (Tbl ρ) := do
  let a1 ← stepU lib tel bkg ((220 + ((0 : ℕ) : ℚ)) / 10) a0
  let a2 ← stepU lib tel bkg ((220 + ((1 : ℕ) : ℚ)) / 10) a1
  let a3 ← stepU lib tel bkg ((220 + ((2 : ℕ) : ℚ)) / 10) a2
  let a4 ← stepU lib tel bkg ((220 + ((3 : ℕ) : ℚ)) / 10) a3
  let a5 ← stepU lib tel bkg ((220 + ((4 : ℕ) : ℚ)) / 10) a4
  let a6 ← stepU lib tel bkg ((220 + ((5 : ℕ) : ℚ)) / 10) a5
  let a7 ← stepU lib tel bkg ((220 + ((6 : ℕ) : ℚ)) / 10) a6
  let a8 ← stepU lib tel bkg ((220 + ((7 : ℕ) : ℚ)) / 10) a7
  let a9 ← stepU lib tel bkg ((220 + ((8 : ℕ) : ℚ)) / 10) a8
  let a10 ← stepU lib tel bkg ((220 + ((9 : ℕ) : ℚ)) / 10) a9
  let a11 ← stepU lib tel bkg ((220 + ((10 : ℕ) : ℚ)) / 10) a10
  let a12 ← stepU lib tel bkg ((220 + ((11 : ℕ) : ℚ)) / 10) a11
  let a13 ← stepU lib tel bkg ((220 + ((12 : ℕ) : ℚ)) / 10) a12
  let a14 ← stepU lib tel bkg ((220 + ((13 : ℕ) : ℚ)) / 10) a13
  let a15 ← stepU lib tel bkg ((220 + ((14 : ℕ) : ℚ)) / 10) a14
  let a16 ← stepU lib tel bkg ((220 + ((15 : ℕ) : ℚ)) / 10) a15
  let a17 ← stepU lib tel bkg ((220 + ((16 : ℕ) : ℚ)) / 10) a16
  let a18 ← stepU lib tel bkg ((220 + ((17 : ℕ) : ℚ)) / 10) a17
  let a19 ← stepU lib tel bkg ((220 + ((18 : ℕ) : ℚ)) / 10) a18
  let a20 ← stepU lib tel bkg ((220 + ((19 : ℕ) : ℚ)) / 10) a19
  let a21 ← stepU lib tel bkg ((220 + ((20 : ℕ) : ℚ)) / 10) a20
  let a22 ← stepU lib tel bkg ((220 + ((21 : ℕ) : ℚ)) / 10) a21
  let a23 ← stepU lib tel bkg ((220 + ((22 : ℕ) : ℚ)) / 10) a22
  let a24 ← stepU lib tel bkg ((220 + ((23 : ℕ) : ℚ)) / 10) a23
  let a25 ← stepU lib tel bkg ((220 + ((24 : ℕ) : ℚ)) / 10) a24
  let a26 ← stepU lib tel bkg ((220 + ((25 : ℕ) : ℚ)) / 10) a25
  let a27 ← stepU lib tel bkg ((220 + ((26 : ℕ) : ℚ)) / 10) a26
  let a28 ← stepU lib tel bkg ((220 + ((27 : ℕ) : ℚ)) / 10) a27
  let a29 ← stepU lib tel bkg ((220 + ((28 : ℕ) : ℚ)) / 10) a28
  let a30 ← stepU lib tel bkg ((220 + ((29 : ℕ) : ℚ)) / 10) a29
  let a31 ← stepU lib tel bkg ((220 + ((30 : ℕ) : ℚ)) / 10) a30
  let a32 ← stepU lib tel bkg ((220 + ((31 : ℕ) : ℚ)) / 10) a31
  let a33 ← stepU lib tel bkg ((220 + ((32 : ℕ) : ℚ)) / 10) a32
  let a34 ← stepU lib tel bkg ((220 + ((33 : ℕ) : ℚ)) / 10) a33
  let a35 ← stepU lib tel bkg ((220 + ((34 : ℕ) : ℚ)) / 10) a34
  let a36 ← stepU lib tel bkg ((220 + ((35 : ℕ) : ℚ)) / 10) a35
  let a37 ← stepU lib tel bkg ((220 + ((36 : ℕ) : ℚ)) / 10) a36
  let a38 ← stepU lib tel bkg ((220 + ((37 : ℕ) : ℚ)) / 10) a37
  let a39 ← stepU lib tel bkg ((220 + ((38 : ℕ) : ℚ)) / 10) a38
  let a40 ← stepU lib tel bkg ((220 + ((39 : ℕ) : ℚ)) / 10) a39
  let a41 ← stepU lib tel bkg ((220 + ((40 : ℕ) : ℚ)) / 10) a40
  let a42 ← stepU lib tel bkg ((220 + ((41 : ℕ) : ℚ)) / 10) a41
  let a43 ← stepU lib tel bkg ((220 + ((42 : ℕ) : ℚ)) / 10) a42
  let a44 ← stepU lib tel bkg ((220 + ((43 : ℕ) : ℚ)) / 10) a43
  let a45 ← stepU lib tel bkg ((220 + ((44 : ℕ) : ℚ)) / 10) a44
  let a46 ← stepU lib tel bkg ((220 + ((45 : ℕ) : ℚ)) / 10) a45
  let a47 ← stepU lib tel bkg ((220 + ((46 : ℕ) : ℚ)) / 10) a46
  let a48 ← stepU lib tel bkg ((220 + ((47 : ℕ) : ℚ)) / 10) a47
  let a49 ← stepU lib tel bkg ((220 + ((48 : ℕ) : ℚ)) / 10) a48
  let a50 ← stepU lib tel bkg ((220 + ((49 : ℕ) : ℚ)) / 10) a49
  let a51 ← stepU lib tel bkg ((220 + ((50 : ℕ) : ℚ)) / 10) a50
  let a52 ← stepU lib tel bkg ((220 + ((51 : ℕ) : ℚ)) / 10) a51
  let a53 ← stepU lib tel bkg ((220 + ((52 : ℕ) : ℚ)) / 10) a52
  let a54 ← stepU lib tel bkg ((220 + ((53 : ℕ) : ℚ)) / 10) a53
  let a55 ← stepU lib tel bkg ((220 + ((54 : ℕ) : ℚ)) / 10) a54
  let a56 ← stepU lib tel bkg ((220 + ((55 : ℕ) : ℚ)) / 10) a55
  let a57 ← stepU lib tel bkg ((220 + ((56 : ℕ) : ℚ)) / 10) a56
  let a58 ← stepU lib tel bkg ((220 + ((57 : ℕ) : ℚ)) / 10) a57
  let a59 ← stepU lib tel bkg ((220 + ((58 : ℕ) : ℚ)) / 10) a58
  let a60 ← stepU lib tel bkg ((220 + ((59 : ℕ) : ℚ)) / 10) a59
  let a61 ← stepU lib tel bkg ((220 + ((60 : ℕ) : ℚ)) / 10) a60
  let a62 ← stepU lib tel bkg ((220 + ((61 : ℕ) : ℚ)) / 10) a61
  let a63 ← stepU lib tel bkg ((220 + ((62 : ℕ) : ℚ)) / 10) a62
  let a64 ← stepU lib tel bkg ((220 + ((63 : ℕ) : ℚ)) / 10) a63
  let a65 ← stepU lib tel bkg ((220 + ((64 : ℕ) : ℚ)) / 10) a64
  let a66 ← stepU lib tel bkg ((220 + ((65 : ℕ) : ℚ)) / 10) a65
  let a67 ← stepU lib tel bkg ((220 + ((66 : ℕ) : ℚ)) / 10) a66
  let a68 ← stepU lib tel bkg ((220 + ((67 : ℕ) : ℚ)) / 10) a67
  let a69 ← stepU lib tel bkg ((220 + ((68 : ℕ) : ℚ)) / 10) a68
  let a70 ← stepU lib tel bkg ((220 + ((69 : ℕ) : ℚ)) / 10) a69
  .ok a70

/-- The whole batch computation as a branch-free, loop-free, straight-line
sequence of library invocations. -/
def unrolledBatch (lib : ETC ε τ β σ φ ρ) : Except ε (Tbl ρ) := do
  let tel ← lib.newTelescope
  let bkg ← lib.newBackground
  let bkg2 ← lib.addGeocoronalEmission bkg "avg"
  unrolledLoop lib tel bkg2 (tblInit ρ)

/-! ## The display cell (cell 6) and the notebook's observable effects -/

/-- Observable effects the notebook itself can perform.  `writeFile` is part
of the effect vocabulary so that the absence of file output is an assertion
about the program rather than an accident of typing. -/
inductive Eff (ρ : Type) : Type
  | printLine (s : String)
  | displayFrame (rows : List (ℚ × Option ρ)) (transposed : Bool)
  | writeFile (path contents : String)
deriving DecidableEq

/-- The data of `pd.DataFrame(times_to_reach_snrs[snr]).round(2).T`: the inner
dictionary for `snr` with `round2` (rounding to 2 decimals) applied to every
stored value.  Transposition is a presentation choice recorded by the flag on
the `displayFrame` effect. -/
def displayFrameFor (round2 : ρ → ρ) (t : Tbl ρ) (snr : ℕ) :
    List (ℚ × Option ρ) :=
  let inner : List (ℚ × Option ρ) :=
    match dictGet t.outer snr with
    | some r => t.heap.getD r []
    | none => []
  inner.map (fun mv => (mv.1, mv.2.map round2))

/-- The display loop over a list of target S/N values: print the header, then
display the rounded, transposed frame. -/
def displayCellAux (round2 : ρ → ρ) (t : Tbl ρ) : List ℕ → List (Eff ρ)
  | [] => []
  | snr :: rest =>
      Eff.printLine ("Times (s) required to reach S/N = " ++ toString snr) ::
      Eff.displayFrame (displayFrameFor round2 t snr) true ::
      displayCellAux round2 t rest

/-- Cell 6: `for snr in TARGET_SNRS: print(...); display(...)`. -/
def displayCell (round2 : ρ → ρ) (t : Tbl ρ) : List (Eff ρ) :=
  displayCellAux round2 t TARGET_SNRS

/-- The whole notebook run: the batch cell, then the display cell.  The
display effects exist only when the batch succeeded. -/
def runAll (lib : ETC ε τ β σ φ ρ) (round2 : ρ → ρ) :
    Except ε (Tbl ρ × List (Eff ρ)) := do
  let t ← runBatch lib
  .ok (t, displayCell round2 t)

/-- The effects the notebook run emits: the display cell's prints and frames
when the batch succeeded, nothing when it raised. -/
def notebookEffects (lib : ETC ε τ β σ φ ρ) (round2 : ρ → ρ) : List (Eff ρ) :=
  match runAll lib round2 with
  | .ok tp => tp.2
  | .error _ => []

/-! ## The batch program with its sequence of library invocations

`runBatchT` is the same program as `runBatch`, additionally recording the
sequence of library calls it issues, with the argument objects each call
receives.  A call is recorded whether it succeeds or raises; on a raise the
trace stops with that call. -/

/-- One recorded library invocation, with the objects passed to it. -/
inductive CallEv (τ β σ φ : Type) : Type
  | newTelescope
  | newBackground
  | addGeocoronalEmission (b : β) (kind : String)
  | newPointSource
  | generateUniform (s : σ) (wl : List ℕ) (v : ℚ) (unit : String)
  | newPhotometry (t : τ) (s : σ) (b : β)
  | useOptimalAperture (p : φ) (quiet : Bool)
  | calcSnrOrT (p : φ) (snr : ℕ) (reddening : ℚ) (quiet : Bool)

/-- Is this event a `Telescope()` construction? -/
def CallEv.isNewTelescope : CallEv τ β σ φ → Bool
  | .newTelescope => true
  | _ => false

/-- Is this event a `Background()` construction? -/
def CallEv.isNewBackground : CallEv τ β σ φ → Bool
  | .newBackground => true
  | _ => false

/-- Is this event an `add_geocoronal_emission` call? -/
def CallEv.isAddGeocoronal : CallEv τ β σ φ → Bool
  | .addGeocoronalEmission _ _ => true
  | _ => false

/-- Inner S/N loop with call recording. -/
def runSnrsT (lib : ETC ε τ β σ φ ρ) (p : φ) (m : ℚ) :
    List ℕ → Tbl ρ → Except ε (Tbl ρ) × List (CallEv τ β σ φ)
  | [], acc => (.ok acc, [])
  | snr :: rest, acc =>
      match lib.calcSnrOrT p snr REDDENING true with
      | .error e => (.error e, [.calcSnrOrT p snr REDDENING true])
      | .ok t =>
          let r := runSnrsT lib p m rest (tblSet acc snr m t)
          (r.1, .calcSnrOrT p snr REDDENING true :: r.2)

/-- Loop body with call recording. -/
def stepT (lib : ETC ε τ β σ φ ρ) (tel : τ) (bkg : β) (m : ℚ) (acc : Tbl ρ) :
    Except ε (Tbl ρ) × List (CallEv τ β σ φ) :=
  match lib.newPointSource with
  | .error e => (.error e, [.newPointSource])
  | .ok s =>
      match lib.generateUniform s wavelengths m "ABmag" with
      | .error e =>
          (.error e,
            [.newPointSource, .generateUniform s wavelengths m "ABmag"])
      | .ok s2 =>
          match lib.newPhotometry tel s2 bkg with
          | .error e =>
              (.error e,
                [.newPointSource, .generateUniform s wavelengths m "ABmag",
                  .newPhotometry tel s2 bkg])
          | .ok p =>
              match lib.useOptimalAperture p true with
              | .error e =>
                  (.error e,
                    [.newPointSource,
                      .generateUniform s wavelengths m "ABmag",
                      .newPhotometry tel s2 bkg, .useOptimalAperture p true])
              | .ok p2 =>
                  let r := runSnrsT lib p2 m TARGET_SNRS acc
                  (r.1,
                    .newPointSource ::
                    .generateUniform s wavelengths m "ABmag" ::
                    .newPhotometry tel s2 bkg ::
                    .useOptimalAperture p true :: r.2)

/-- Magnitude loop with call recording. -/
def runMagsT (lib : ETC ε τ β σ φ ρ) (tel : τ) (bkg : β) :
    List ℚ → Tbl ρ → Except ε (Tbl ρ) × List (CallEv τ β σ φ)
  | [], acc => (.ok acc, [])
  | m :: rest, acc =>
      let r := stepT lib tel bkg m acc
      match r.1 with
      | .error e => (.error e, r.2)
      | .ok acc2 =>
          let r2 := runMagsT lib tel bkg rest acc2
          (r2.1, r.2 ++ r2.2)

/-- The batch computation with call recording. -/
def runBatchT (lib : ETC ε τ β σ φ ρ) :
    Except ε (Tbl ρ) × List (CallEv τ β σ φ) :=
  match lib.newTelescope with
  | .error e => (.error e, [.newTelescope])
  | .ok tel =>
      match lib.newBackground with
      | .error e => (.error e, [.newTelescope, .newBackground])
      | .ok bkg =>
          match lib.addGeocoronalEmission bkg "avg" with
          | .error e =>
              (.error e,
                [.newTelescope, .newBackground,
                  .addGeocoronalEmission bkg "avg"])
          | .ok bkg2 =>
              let r := runMagsT lib tel bkg2 AB_MAGS (tblInit ρ)
              (r.1,
                CallEv.newTelescope :: CallEv.newBackground ::
                CallEv.addGeocoronalEmission bkg "avg" :: r.2)

/-! ## Concrete instances of the interface, used to evaluate the program -/

/-- A total instance of the interface over small concrete types: a point
source remembers the magnitude of its uniform spectrum, a photometry object
remembers its source, and `calc_snr_or_t` answers magnitude plus target S/N. -/
def lib0 : ETC Unit Unit Unit ℚ ℚ ℚ :=
  ⟨.ok (), .ok (), fun _ _ => .ok (), .ok 0,
   fun _ _ v _ => .ok v, fun _ s _ => .ok s, fun p _ => .ok p,
   fun p snr _ _ => .ok (p + snr)⟩

/-- The table `lib0` produces. -/
def tbl0 : Tbl ℚ :=
  match runBatch lib0 with
  | .ok t => t
  | .error _ => ⟨[], []⟩

/-- An instance whose `calc_snr_or_t` always raises. -/
def libFail : ETC Unit Unit Unit ℚ ℚ ℚ :=
  ⟨.ok (), .ok (), fun _ _ => .ok (), .ok 0,
   fun _ _ v _ => .ok v, fun _ s _ => .ok s, fun p _ => .ok p,
   fun _ _ _ _ => .error ()⟩

/-- An instance that answers 0 to any `calc_snr_or_t` call whose reddening is
not the notebook's 0.09. -/
def libA : ETC Unit Unit Unit ℚ ℚ ℚ :=
  ⟨.ok (), .ok (), fun _ _ => .ok (), .ok 0,
   fun _ _ v _ => .ok v, fun _ s _ => .ok s, fun p _ => .ok p,
   fun p snr r _ => .ok (if r = REDDENING then p + snr else 0)⟩

/-- An instance that agrees with `libA` on every call the notebook issues but
answers 999 to `calc_snr_or_t` calls with any other reddening. -/
def libB : ETC Unit Unit Unit ℚ ℚ ℚ :=
  ⟨.ok (), .ok (), fun _ _ => .ok (), .ok 0,
   fun _ _ v _ => .ok v, fun _ s _ => .ok s, fun p _ => .ok p,
   fun p snr r _ => .ok (if r = REDDENING then p + snr else 999)⟩

/-! ## Helper lemmas: `Except` bind -/

theorem error_bind {α γ : Type} (e : ε) (f : α → Except ε γ) :
    (Except.error e >>= f) = Except.error e := rfl

theorem ok_bind {α γ : Type} (a : α) (f : α → Except ε γ) :
    (Except.ok a >>= f) = f a := rfl

theorem bind_ok_iff {α γ : Type} (x : Except ε α) (f : α → Except ε γ)
    (b : γ) : (x >>= f) = .ok b ↔ ∃ a, x = .ok a ∧ f a = .ok b := by
  cases x with
  | error e => simp [error_bind]
  | ok a => simp [ok_bind]

theorem bind_error_iff {α γ : Type} (x : Except ε α) (f : α → Except ε γ)
    (e : ε) : (x >>= f) = .error e ↔
      x = .error e ∨ ∃ a, x = .ok a ∧ f a = .error e := by
  cases x with
  | error e' => simp [error_bind]
  | ok a => simp [ok_bind]

theorem bind_congr_fun {α γ : Type} (x : Except ε α) (f g : α → Except ε γ)
    (h : ∀ a, f a = g a) : (x >>= f) = (x >>= g) := by
  cases x with
  | error e => rfl
  | ok a => exact h a

/-! ## Helper lemmas: the dictionary model -/

theorem dictGet_dictSet_self {K V : Type} [DecidableEq K] (d : List (K × V))
    (k : K) (v : V) : dictGet (dictSet d k v) k = some v := by
  unfold dictSet
  by_cases hmem : k ∈ d.map Prod.fst
  · simp only [hmem, if_true]
    induction d with
    | nil => simp at hmem
    | cons kv rest ih =>
      by_cases hk : kv.1 = k
      · simp [dictGet, hk]
      · simp only [List.map_cons, List.mem_cons] at hmem
        rcases hmem with h | h
        · exact absurd h.symm hk
        · simp [dictGet, hk, ih h]
  · simp only [hmem, if_false]
    induction d with
    | nil => simp [dictGet]
    | cons kv rest ih =>
      simp only [List.map_cons, List.mem_cons, not_or] at hmem
      have hk : ¬kv.1 = k := fun h => hmem.1 h.symm
      simp [dictGet, hk, ih hmem.2]

theorem dictGet_map_update_ne {K V : Type} [DecidableEq K] (d : List (K × V))
    (k k' : K) (v : V) (h : k' ≠ k) :
    dictGet (d.map (fun kv => if kv.1 = k then (k, v) else kv)) k'
      = dictGet d k' := by
  induction d with
  | nil => simp [dictGet]
  | cons kv rest ih =>
    by_cases hk : kv.1 = k
    · have hne : ¬(k = k') := fun hh => h hh.symm
      have hne2 : ¬(kv.1 = k') := by rw [hk]; exact hne
      simp [dictGet, hk, hne, hne2, ih]
    · by_cases hk' : kv.1 = k'
      · simp [dictGet, hk, hk', h]
      · simp [dictGet, hk, hk', ih]

theorem dictGet_append_one_ne {K V : Type} [DecidableEq K] (d : List (K × V))
    (k k' : K) (v : V) (h : k' ≠ k) :
    dictGet (d ++ [(k, v)]) k' = dictGet d k' := by
  induction d with
  | nil =>
    have hne : ¬(k = k') := fun hh => h hh.symm
    simp [dictGet, hne]
  | cons kv rest ih =>
    by_cases hk' : kv.1 = k'
    · simp [dictGet, hk']
    · simp [dictGet, hk', ih]

theorem dictGet_dictSet_ne {K V : Type} [DecidableEq K] (d : List (K × V))
    (k k' : K) (v : V) (h : k' ≠ k) :
    dictGet (dictSet d k v) k' = dictGet d k' := by
  unfold dictSet
  by_cases hmem : k ∈ d.map Prod.fst
  · simp only [hmem, if_true]
    exact dictGet_map_update_ne d k k' v h
  · simp only [hmem, if_false]
    exact dictGet_append_one_ne d k k' v h

theorem dictSet_keys_of_mem {K V : Type} [DecidableEq K] (d : List (K × V))
    (k : K) (v : V) (h : k ∈ d.map Prod.fst) :
    (dictSet d k v).map Prod.fst = d.map Prod.fst := by
  unfold dictSet
  simp only [h, if_true, List.map_map]
  apply List.map_congr_left
  intro kv _
  by_cases hk : kv.1 = k
  · simp [Function.comp, hk]
  · simp [Function.comp, hk]

theorem dictFromkeys_keys {K V : Type} (ks : List K) :
    (dictFromkeys (V := V) ks).map Prod.fst = ks := by
  induction ks with
  | nil => rfl
  | cons k rest ih => simpa [dictFromkeys] using ih

theorem dictGet_dictFromkeys {K V : Type} [DecidableEq K] (ks : List K)
    (k : K) (h : k ∈ ks) :
    dictGet (dictFromkeys (V := V) ks) k = some none := by
  induction ks with
  | nil => simp at h
  | cons k0 rest ih =>
    by_cases hk : k0 = k
    · simp [dictFromkeys, dictGet, hk]
    · rcases List.mem_cons.mp h with h0 | h0
      · exact absurd h0.symm hk
      · simpa [dictFromkeys, dictGet, hk] using ih h0

theorem dictGet_map_snd {K V W : Type} [DecidableEq K]
    (d : List (K × V)) (g : V → W) (k : K) :
    dictGet (d.map (fun kv => (kv.1, g kv.2))) k = (dictGet d k).map g := by
  induction d with
  | nil => simp [dictGet]
  | cons kv rest ih =>
    by_cases hk : kv.1 = k
    · simp [dictGet, hk]
    · simp [dictGet, hk, ih]

theorem dictGet_isSome_of_mem {K V : Type} [DecidableEq K]
    (d : List (K × V)) (k : K) (h : k ∈ d.map Prod.fst) :
    ∃ v, dictGet d k = some v := by
  induction d with
  | nil => simp at h
  | cons kv rest ih =>
    by_cases hk : kv.1 = k
    · exact ⟨kv.2, by simp [dictGet, hk]⟩
    · simp only [List.map_cons, List.mem_cons] at h
      rcases h with h0 | h0
      · exact absurd h0.symm hk
      · simpa [dictGet, hk] using ih h0

/-! ## Helper lemmas: the table of results -/

theorem initFor_eq (ks : List ℚ) :
    initFor ρ ks = ⟨[(5, 0), (10, 1)], [dictFromkeys ks, dictFromkeys ks]⟩ :=
  rfl

theorem wfK_initFor (ks : List ℚ) : wfK ks (initFor ρ ks) :=
  ⟨dictFromkeys ks, dictFromkeys ks, rfl, rfl,
    dictFromkeys_keys ks, dictFromkeys_keys ks⟩

theorem tblSet_five (d5 d10 : List (ℚ × Option ρ)) (m : ℚ) (v : ρ) :
    tblSet ⟨[(5, 0), (10, 1)], [d5, d10]⟩ 5 m v
      = ⟨[(5, 0), (10, 1)], [dictSet d5 m (some v), d10]⟩ := rfl

theorem tblSet_ten (d5 d10 : List (ℚ × Option ρ)) (m : ℚ) (v : ρ) :
    tblSet ⟨[(5, 0), (10, 1)], [d5, d10]⟩ 10 m v
      = ⟨[(5, 0), (10, 1)], [d5, dictSet d10 m (some v)]⟩ := rfl

theorem tblGet_five (d5 d10 : List (ℚ × Option ρ)) (m : ℚ) :
    tblGet ⟨[(5, 0), (10, 1)], [d5, d10]⟩ 5 m = dictGet d5 m := rfl

theorem tblGet_ten (d5 d10 : List (ℚ × Option ρ)) (m : ℚ) :
    tblGet ⟨[(5, 0), (10, 1)], [d5, d10]⟩ 10 m = dictGet d10 m := rfl

theorem mem_target_snrs (snr : ℕ) : snr ∈ TARGET_SNRS ↔ snr = 5 ∨ snr = 10 := by
  simp [TARGET_SNRS]

/-- A store at a key of `ks` preserves well-formedness. -/
theorem wfK_tblSet (ks : List ℚ) (t : Tbl ρ) (snr : ℕ) (m : ℚ) (v : ρ)
    (hwf : wfK ks t) (hsnr : snr ∈ TARGET_SNRS) (hm : m ∈ ks) :
    wfK ks (tblSet t snr m v) := by
  obtain ⟨d5, d10, ho, hh, h5, h10⟩ := hwf
  obtain ⟨t1, t2⟩ := t
  cases ho
  cases hh
  rcases (mem_target_snrs snr).mp hsnr with h | h <;> subst h
  · rw [tblSet_five]
    exact ⟨dictSet d5 m (some v), d10, rfl, rfl,
      by rw [dictSet_keys_of_mem d5 m _ (h5 ▸ hm)]; exact h5, h10⟩
  · rw [tblSet_ten]
    exact ⟨d5, dictSet d10 m (some v), rfl, rfl, h5,
      by rw [dictSet_keys_of_mem d10 m _ (h10 ▸ hm)]; exact h10⟩

/-- Storing under one target S/N never changes what is read under the other:
the two inner dictionaries are distinct heap cells. -/
theorem tblGet_tblSet_ne_snr (ks : List ℚ) (t : Tbl ρ) (snr snr' : ℕ)
    (m m' : ℚ) (v : ρ) (hwf : wfK ks t) (hsnr : snr ∈ TARGET_SNRS)
    (hsnr' : snr' ∈ TARGET_SNRS) (hne : snr ≠ snr') :
    tblGet (tblSet t snr m v) snr' m' = tblGet t snr' m' := by
  obtain ⟨d5, d10, ho, hh, _, _⟩ := hwf
  obtain ⟨t1, t2⟩ := t
  cases ho
  cases hh
  rcases (mem_target_snrs snr).mp hsnr with h | h <;> subst h <;>
    rcases (mem_target_snrs snr').mp hsnr' with h' | h' <;> subst h' <;>
      first
        | exact absurd rfl hne
        | rw [tblSet_five, tblGet_ten, tblGet_ten]
        | rw [tblSet_ten, tblGet_five, tblGet_five]

/-- Reading back the stored magnitude under the stored S/N. -/
theorem tblGet_tblSet_self (ks : List ℚ) (t : Tbl ρ) (snr : ℕ) (m : ℚ)
    (v : ρ) (hwf : wfK ks t) (hsnr : snr ∈ TARGET_SNRS) :
    tblGet (tblSet t snr m v) snr m = some (some v) := by
  obtain ⟨d5, d10, ho, hh, _, _⟩ := hwf
  obtain ⟨t1, t2⟩ := t
  cases ho
  cases hh
  rcases (mem_target_snrs snr).mp hsnr with h | h <;> subst h
  · rw [tblSet_five, tblGet_five, dictGet_dictSet_self]
  · rw [tblSet_ten, tblGet_ten, dictGet_dictSet_self]

/-- A store at magnitude `m` does not change the entry of any `m' ≠ m`. -/
theorem tblGet_tblSet_ne_mag (ks : List ℚ) (t : Tbl ρ) (snr snr' : ℕ)
    (m m' : ℚ) (v : ρ) (hwf : wfK ks t) (hsnr : snr ∈ TARGET_SNRS)
    (hsnr' : snr' ∈ TARGET_SNRS) (hne : m' ≠ m) :
    tblGet (tblSet t snr m v) snr' m' = tblGet t snr' m' := by
  obtain ⟨d5, d10, ho, hh, _, _⟩ := hwf
  obtain ⟨t1, t2⟩ := t
  cases ho
  cases hh
  rcases (mem_target_snrs snr).mp hsnr with h | h <;> subst h <;>
    rcases (mem_target_snrs snr').mp hsnr' with h' | h' <;> subst h'
  · rw [tblSet_five, tblGet_five, tblGet_five, dictGet_dictSet_ne _ _ _ _ hne]
  · rw [tblSet_five, tblGet_ten, tblGet_ten]
  · rw [tblSet_ten, tblGet_five, tblGet_five]
  · rw [tblSet_ten, tblGet_ten, tblGet_ten, dictGet_dictSet_ne _ _ _ _ hne]

/-- The slot for a key of `ks` of a well-formed table is bound (possibly to
Python's `None`). -/
theorem tblGet_isSome_of_wfK (ks : List ℚ) (t : Tbl ρ) (snr : ℕ) (m : ℚ)
    (hwf : wfK ks t) (hsnr : snr ∈ TARGET_SNRS) (hm : m ∈ ks) :
    ∃ w, tblGet t snr m = some w := by
  obtain ⟨d5, d10, ho, hh, h5, h10⟩ := hwf
  obtain ⟨t1, t2⟩ := t
  cases ho
  cases hh
  rcases (mem_target_snrs snr).mp hsnr with h | h <;> subst h
  · rw [tblGet_five]; exact dictGet_isSome_of_mem d5 m (h5 ▸ hm)
  · rw [tblGet_ten]; exact dictGet_isSome_of_mem d10 m (h10 ▸ hm)

/-! ## Helper lemmas: decomposing the program -/

/-- A loop body succeeds exactly when its five library calls succeed in
sequence, and then it performs the two stores for S/N 5 and 10. -/
theorem step_ok_iff (lib : ETC ε τ β σ φ ρ) (tel : τ) (bkg : β) (m : ℚ)
    (acc t2 : Tbl ρ) :
    step lib tel bkg m acc = .ok t2 ↔
      ∃ s s2 p p2 t5 t10,
        lib.newPointSource = .ok s ∧
        lib.generateUniform s wavelengths m "ABmag" = .ok s2 ∧
        lib.newPhotometry tel s2 bkg = .ok p ∧
        lib.useOptimalAperture p true = .ok p2 ∧
        lib.calcSnrOrT p2 5 REDDENING true = .ok t5 ∧
        lib.calcSnrOrT p2 10 REDDENING true = .ok t10 ∧
        t2 = tblSet (tblSet acc 5 m t5) 10 m t10 := by
  have hshape : step lib tel bkg m acc =
      (lib.newPointSource >>= fun s =>
        lib.generateUniform s wavelengths m "ABmag" >>= fun s2 =>
        lib.newPhotometry tel s2 bkg >>= fun p =>
        lib.useOptimalAperture p true >>= fun p2 =>
        lib.calcSnrOrT p2 5 REDDENING true >>= fun t5 =>
        lib.calcSnrOrT p2 10 REDDENING true >>= fun t10 =>
        Except.ok (tblSet (tblSet acc 5 m t5) 10 m t10)) := rfl
  rw [hshape]
  simp only [bind_ok_iff, Except.ok.injEq]
  constructor
  · rintro ⟨s, hs, s2, hs2, p, hp, p2, hp2, t5, h5, t10, h10, hok⟩
    exact ⟨s, s2, p, p2, t5, t10, hs, hs2, hp, hp2, h5, h10, hok.symm⟩
  · rintro ⟨s, s2, p, p2, t5, t10, hs, hs2, hp, hp2, h5, h10, hok⟩
    exact ⟨s, hs, s2, hs2, p, hp, p2, hp2, t5, h5, t10, h10, hok.symm⟩

/-- The five call results determine `sourceResult` at S/N 5. -/
theorem sourceResult_of_calls_five (lib : ETC ε τ β σ φ ρ) (tel : τ) (bkg : β)
    (m : ℚ) (s s2 : σ) (p p2 : φ) (t5 : ρ)
    (hs : lib.newPointSource = .ok s)
    (hs2 : lib.generateUniform s wavelengths m "ABmag" = .ok s2)
    (hp : lib.newPhotometry tel s2 bkg = .ok p)
    (hp2 : lib.useOptimalAperture p true = .ok p2)
    (h5 : lib.calcSnrOrT p2 5 REDDENING true = .ok t5) :
    sourceResult lib tel bkg m 5 = .ok t5 := by
  unfold sourceResult
  rw [hs, ok_bind, hs2, ok_bind, hp, ok_bind, hp2, ok_bind, h5]

/-- The five call results determine `sourceResult` at S/N 10. -/
theorem sourceResult_of_calls_ten (lib : ETC ε τ β σ φ ρ) (tel : τ) (bkg : β)
    (m : ℚ) (s s2 : σ) (p p2 : φ) (t10 : ρ)
    (hs : lib.newPointSource = .ok s)
    (hs2 : lib.generateUniform s wavelengths m "ABmag" = .ok s2)
    (hp : lib.newPhotometry tel s2 bkg = .ok p)
    (hp2 : lib.useOptimalAperture p true = .ok p2)
    (h10 : lib.calcSnrOrT p2 10 REDDENING true = .ok t10) :
    sourceResult lib tel bkg m 10 = .ok t10 := by
  unfold sourceResult
  rw [hs, ok_bind, hs2, ok_bind, hp, ok_bind, hp2, ok_bind, h10]

/-- A successful loop body preserves well-formedness, stores the
`sourceResult` values for S/N 5 and 10 at its own magnitude, and leaves
every other magnitude's entries untouched. -/
theorem step_ok_spec (lib : ETC ε τ β σ φ ρ) (tel : τ) (bkg : β) (m : ℚ)
    (ks : List ℚ) (acc t2 : Tbl ρ) (hwf : wfK ks acc) (hm : m ∈ ks)
    (hok : step lib tel bkg m acc = .ok t2) :
    wfK ks t2 ∧
    (∀ snr, snr ∈ TARGET_SNRS →
      ∃ v, sourceResult lib tel bkg m snr = .ok v ∧
        tblGet t2 snr m = some (some v)) ∧
    (∀ snr, snr ∈ TARGET_SNRS → ∀ m' : ℚ, m' ≠ m →
      tblGet t2 snr m' = tblGet acc snr m') := by
  obtain ⟨s, s2, p, p2, t5, t10, hs, hs2, hp, hp2, h5, h10, ht2⟩ :=
    (step_ok_iff lib tel bkg m acc t2).mp hok
  have h5m : (5 : ℕ) ∈ TARGET_SNRS := by simp [TARGET_SNRS]
  have h10m : (10 : ℕ) ∈ TARGET_SNRS := by simp [TARGET_SNRS]
  have hwf1 : wfK ks (tblSet acc 5 m t5) := wfK_tblSet ks acc 5 m t5 hwf h5m hm
  have hwf2 : wfK ks t2 := ht2 ▸ wfK_tblSet ks _ 10 m t10 hwf1 h10m hm
  refine ⟨hwf2, ?_, ?_⟩
  · intro snr hsnr
    rcases (mem_target_snrs snr).mp hsnr with h | h <;> subst h
    · refine ⟨t5, sourceResult_of_calls_five lib tel bkg m s s2 p p2 t5
        hs hs2 hp hp2 h5, ?_⟩
      rw [ht2, tblGet_tblSet_ne_snr ks _ 10 5 m m t10 hwf1 h10m h5m
        (by decide), tblGet_tblSet_self ks acc 5 m t5 hwf h5m]
    · refine ⟨t10, sourceResult_of_calls_ten lib tel bkg m s s2 p p2 t10
        hs hs2 hp hp2 h10, ?_⟩
      rw [ht2, tblGet_tblSet_self ks _ 10 m t10 hwf1 h10m]
  · intro snr hsnr m' hne
    rw [ht2, tblGet_tblSet_ne_mag ks _ 10 snr m m' t10 hwf1 h10m hsnr hne,
      tblGet_tblSet_ne_mag ks acc 5 snr m m' t5 hwf h5m hsnr hne]

/-- Unfolding one iteration of the magnitude loop. -/
theorem runMags_cons (lib : ETC ε τ β σ φ ρ) (tel : τ) (bkg : β) (m : ℚ)
    (rest : List ℚ) (acc : Tbl ρ) :
    runMags lib tel bkg (m :: rest) acc =
      (step lib tel bkg m acc >>= fun acc2 => runMags lib tel bkg rest acc2) :=
  rfl

/-- The magnitude loop over `pre ++ rest` is the loop over `pre` continued
over `rest`. -/
theorem runMags_append (lib : ETC ε τ β σ φ ρ) (tel : τ) (bkg : β)
    (pre rest : List ℚ) (acc acc2 : Tbl ρ)
    (h : runMags lib tel bkg pre acc = .ok acc2) :
    runMags lib tel bkg (pre ++ rest) acc = runMags lib tel bkg rest acc2 := by
  induction pre generalizing acc with
  | nil =>
    simp only [runMags] at h
    cases h
    rfl
  | cons m pre ih =>
    rw [List.cons_append, runMags_cons]
    rw [runMags_cons] at h
    rcases hstep : step lib tel bkg m acc with e | accm
    · rw [hstep, error_bind] at h
      exact absurd h (by simp)
    · rw [hstep, ok_bind] at h
      rw [ok_bind]
      exact ih accm h

/-- Main storage lemma: a successful run of the magnitude loop over any list
`ms` of magnitudes drawn from the key list `ks` stores, for every `m ∈ ms`
and each target S/N, exactly the `sourceResult` value, and leaves the entries
of magnitudes outside `ms` as they were. -/
theorem runMags_ok_spec (lib : ETC ε τ β σ φ ρ) (tel : τ) (bkg : β)
    (ks : List ℚ) :
    ∀ (ms : List ℚ) (acc t : Tbl ρ), wfK ks acc → (∀ m ∈ ms, m ∈ ks) →
      runMags lib tel bkg ms acc = .ok t →
      wfK ks t ∧
      ∀ snr, snr ∈ TARGET_SNRS → ∀ m : ℚ,
        (m ∈ ms → ∃ v, sourceResult lib tel bkg m snr = .ok v ∧
          tblGet t snr m = some (some v)) ∧
        (m ∉ ms → tblGet t snr m = tblGet acc snr m) := by
  intro ms
  induction ms with
  | nil =>
    intro acc t hwf _ hrun
    simp only [runMags] at hrun
    cases hrun
    exact ⟨hwf, fun snr _ m => ⟨fun hm => absurd hm (by simp), fun _ => rfl⟩⟩
  | cons m0 rest ih =>
    intro acc t hwf hks hrun
    rw [runMags_cons] at hrun
    rcases hstep : step lib tel bkg m0 acc with e | acc2
    · rw [hstep, error_bind] at hrun
      exact absurd hrun (by simp)
    · rw [hstep, ok_bind] at hrun
      have hm0 : m0 ∈ ks := hks m0 (by simp)
      obtain ⟨hwf2, hstore, hframe⟩ :=
        step_ok_spec lib tel bkg m0 ks acc acc2 hwf hm0 hstep
      obtain ⟨hwft, hrest⟩ := ih acc2 t hwf2 (fun m hm => hks m (by simp [hm]))
        hrun
      refine ⟨hwft, fun snr hsnr m => ⟨fun hm => ?_, fun hm => ?_⟩⟩
      · by_cases hmr : m ∈ rest
        · exact ((hrest snr hsnr m).1) hmr
        · have hm0eq : m = m0 := by
            rcases List.mem_cons.mp hm with h | h
            · exact h
            · exact absurd h hmr
          subst hm0eq
          obtain ⟨v, hsv, hget⟩ := hstore snr hsnr
          exact ⟨v, hsv, by rw [(hrest snr hsnr m).2 hmr, hget]⟩
      · have hmm : m ∉ rest := fun h => hm (by simp [h])
        have hne : m ≠ m0 := fun h => hm (by simp [h])
        rw [(hrest snr hsnr m).2 hmm, hframe snr hsnr m hne]

/-- The batch program succeeds exactly when its prelude succeeds and the
magnitude loop then succeeds from the fresh table. -/
theorem runBatch_ok_iff (lib : ETC ε τ β σ φ ρ) (t : Tbl ρ) :
    runBatch lib = .ok t ↔
      ∃ tel bkg bkg2,
        lib.newTelescope = .ok tel ∧ lib.newBackground = .ok bkg ∧
        lib.addGeocoronalEmission bkg "avg" = .ok bkg2 ∧
        runMags lib tel bkg2 AB_MAGS (tblInit ρ) = .ok t := by
  have hshape : runBatch lib =
      (lib.newTelescope >>= fun tel =>
        lib.newBackground >>= fun bkg =>
        lib.addGeocoronalEmission bkg "avg" >>= fun bkg2 =>
        runMags lib tel bkg2 AB_MAGS (tblInit ρ)) := rfl
  rw [hshape]
  simp only [bind_ok_iff]
  constructor
  · rintro ⟨tel, htel, bkg, hbkg, bkg2, hbkg2, hloop⟩
    exact ⟨tel, bkg, bkg2, htel, hbkg, hbkg2, hloop⟩
  · rintro ⟨tel, bkg, bkg2, htel, hbkg, hbkg2, hloop⟩
    exact ⟨tel, htel, bkg, hbkg, bkg2, hbkg2, hloop⟩

/-! ## Helper lemmas: the display cell -/

/-- The entry the displayed frame shows for magnitude `m` is the stored entry
with the rounding applied. -/
theorem dictGet_displayFrameFor (round2 : ρ → ρ) (t : Tbl ρ) (snr : ℕ)
    (m : ℚ) :
    dictGet (displayFrameFor round2 t snr) m
      = (tblGet t snr m).map (Option.map round2) := by
  unfold displayFrameFor tblGet
  cases h : dictGet t.outer snr with
  | none => simp [dictGet]
  | some r => simp [dictGet_map_snd]

/-- The display cell is exactly two header prints and two rounded, transposed
frames, in order. -/
theorem displayCell_eq (round2 : ρ → ρ) (t : Tbl ρ) :
    displayCell round2 t =
      [Eff.printLine "Times (s) required to reach S/N = 5",
       Eff.displayFrame (displayFrameFor round2 t 5) true,
       Eff.printLine "Times (s) required to reach S/N = 10",
       Eff.displayFrame (displayFrameFor round2 t 10) true] := rfl

set_option maxRecDepth 1000000 in
/-- `lib0` runs the batch to completion, producing `tbl0`. -/
theorem runBatch_lib0 : runBatch lib0 = .ok tbl0 := rfl

/-! ## The claims -/

/-- C1: when the batch loop completes with table `t`, then for every target
S/N in `TARGET_SNRS` and every magnitude in `AB_MAGS` the entry
`times_to_reach_snrs[snr][ab_mag]` is exactly the value `calc_snr_or_t`
returned for the photometry object built from a fresh point source with a
uniform ABmag spectrum at that magnitude over 90…1199 nm and the optimal
point-source aperture (`sourceResult`), stored unmodified; the display loop
applies only rounding to 2 decimals and transposition to those stored
values. -/
theorem claim1_stored_values_are_library_results
    (lib : ETC ε τ β σ φ ρ) (t : Tbl ρ) (h : runBatch lib = .ok t) :
    ∃ tel bkg bkg2,
      lib.newTelescope = .ok tel ∧ lib.newBackground = .ok bkg ∧
      lib.addGeocoronalEmission bkg "avg" = .ok bkg2 ∧
      (∀ snr, snr ∈ TARGET_SNRS → ∀ m, m ∈ AB_MAGS →
        ∃ v, sourceResult lib tel bkg2 m snr = .ok v ∧
          tblGet t snr m = some (some v) ∧
          ∀ round2 : ρ → ρ,
            dictGet (displayFrameFor round2 t snr) m
              = some (some (round2 v))) ∧
      (∀ round2 : ρ → ρ, displayCell round2 t =
        [Eff.printLine "Times (s) required to reach S/N = 5",
         Eff.displayFrame (displayFrameFor round2 t 5) true,
         Eff.printLine "Times (s) required to reach S/N = 10",
         Eff.displayFrame (displayFrameFor round2 t 10) true]) := by
  obtain ⟨tel, bkg, bkg2, htel, hbkg, hbkg2, hloop⟩ :=
    (runBatch_ok_iff lib t).mp h
  obtain ⟨hwft, hspec⟩ := runMags_ok_spec lib tel bkg2 AB_MAGS AB_MAGS
    (tblInit ρ) t (wfK_initFor AB_MAGS) (fun _ hm => hm) hloop
  refine ⟨tel, bkg, bkg2, htel, hbkg, hbkg2, ?_, fun round2 => rfl⟩
  intro snr hsnr m hm
  obtain ⟨v, hsv, hget⟩ := (hspec snr hsnr m).1 hm
  refine ⟨v, hsv, hget, fun round2 => ?_⟩
  rw [dictGet_displayFrameFor, hget]
  rfl

/-- C1 witness: the conclusion of the claim evaluated on the concrete
interface `lib0`. -/
theorem claim1_witness :
    ∃ tel bkg bkg2,
      lib0.newTelescope = .ok tel ∧ lib0.newBackground = .ok bkg ∧
      lib0.addGeocoronalEmission bkg "avg" = .ok bkg2 ∧
      (∀ snr, snr ∈ TARGET_SNRS → ∀ m, m ∈ AB_MAGS →
        ∃ v, sourceResult lib0 tel bkg2 m snr = .ok v ∧
          tblGet tbl0 snr m = some (some v) ∧
          ∀ round2 : ℚ → ℚ,
            dictGet (displayFrameFor round2 tbl0 snr) m
              = some (some (round2 v))) ∧
      (∀ round2 : ℚ → ℚ, displayCell round2 tbl0 =
        [Eff.printLine "Times (s) required to reach S/N = 5",
         Eff.displayFrame (displayFrameFor round2 tbl0 5) true,
         Eff.printLine "Times (s) required to reach S/N = 10",
         Eff.displayFrame (displayFrameFor round2 tbl0 10) true]) :=
  claim1_stored_values_are_library_results lib0 tbl0 runBatch_lib0

/-- C9: each outer-loop iteration builds a fresh point source and photometry
object, so the value stored at `times_to_reach_snrs[snr][m]` is a function of
`m`, `snr` and the shared telescope/background objects alone: over an
arbitrary magnitude list (any sublist or permutation of the original), a
successful loop stores exactly `sourceResult lib tel bkg m snr` at `m`. -/
theorem claim9_iterations_independent (lib : ETC ε τ β σ φ ρ) (tel : τ)
    (bkg : β) (mags : List ℚ) (t : Tbl ρ) (snr : ℕ) (m : ℚ)
    (hsnr : snr ∈ TARGET_SNRS) (hm : m ∈ mags)
    (hrun : runMags lib tel bkg mags (initFor ρ mags) = .ok t) :
    ∃ v, sourceResult lib tel bkg m snr = .ok v ∧
      tblGet t snr m = some (some v) := by
  obtain ⟨_, hspec⟩ := runMags_ok_spec lib tel bkg mags mags
    (initFor ρ mags) t (wfK_initFor mags) (fun _ hm' => hm') hrun
  exact (hspec snr hsnr m).1 hm

/-- The table the loop over the two magnitudes 23, 22 produces with `lib0`. -/
def tbl9 : Tbl ℚ :=
  match runMags lib0 () () [23, 22] (initFor ℚ [23, 22]) with
  | .ok t => t
  | .error _ => ⟨[], []⟩

/-- C9 witness: on `lib0`, running the loop over the magnitude list
`[23, 22]` stores at S/N 5 and magnitude 22 exactly the straight-line
pipeline's value. -/
theorem claim9_witness :
    ∃ v, sourceResult lib0 () () 22 5 = .ok v ∧
      tblGet tbl9 5 22 = some (some v) :=
  claim9_iterations_independent lib0 () () [23, 22] tbl9 5 22 (by decide)
    (by decide) rfl

/-- The inner S/N loop written out over `TARGET_SNRS`. -/
theorem runSnrs_two (lib : ETC ε τ β σ φ ρ) (p : φ) (m : ℚ) (acc : Tbl ρ) :
    runSnrs lib p m TARGET_SNRS acc =
      (lib.calcSnrOrT p 5 REDDENING true >>= fun t5 =>
        lib.calcSnrOrT p 10 REDDENING true >>= fun t10 =>
        Except.ok (tblSet (tblSet acc 5 m t5) 10 m t10)) := rfl

/-- The loop body written out as its five calls. -/
theorem step_shape (lib : ETC ε τ β σ φ ρ) (tel : τ) (bkg : β) (m : ℚ)
    (acc : Tbl ρ) :
    step lib tel bkg m acc =
      (lib.newPointSource >>= fun s =>
        lib.generateUniform s wavelengths m "ABmag" >>= fun s2 =>
        lib.newPhotometry tel s2 bkg >>= fun p =>
        lib.useOptimalAperture p true >>= fun p2 =>
        runSnrs lib p2 m TARGET_SNRS acc) := rfl

/-- The batch program written out as prelude then loop. -/
theorem runBatch_shape (lib : ETC ε τ β σ φ ρ) :
    runBatch lib =
      (lib.newTelescope >>= fun tel =>
        lib.newBackground >>= fun bkg =>
        lib.addGeocoronalEmission bkg "avg" >>= fun bkg2 =>
        runMags lib tel bkg2 AB_MAGS (tblInit ρ)) := rfl

/-- C2: the notebook has no error handling of its own.  Whichever library
call raises first — in the prelude or in any reachable loop body — the batch
program raises that very error, unchanged, and produces no results table. -/
theorem claim2_errors_propagate_unchanged (lib : ETC ε τ β σ φ ρ) (e : ε) :
    (lib.newTelescope = .error e → runBatch lib = .error e) ∧
    (∀ tel, lib.newTelescope = .ok tel → lib.newBackground = .error e →
      runBatch lib = .error e) ∧
    (∀ tel bkg, lib.newTelescope = .ok tel → lib.newBackground = .ok bkg →
      lib.addGeocoronalEmission bkg "avg" = .error e →
      runBatch lib = .error e) ∧
    (∀ tel bkg m acc,
      (lib.newPointSource = .error e → step lib tel bkg m acc = .error e) ∧
      (∀ s, lib.newPointSource = .ok s →
        lib.generateUniform s wavelengths m "ABmag" = .error e →
        step lib tel bkg m acc = .error e) ∧
      (∀ s s2, lib.newPointSource = .ok s →
        lib.generateUniform s wavelengths m "ABmag" = .ok s2 →
        lib.newPhotometry tel s2 bkg = .error e →
        step lib tel bkg m acc = .error e) ∧
      (∀ s s2 p, lib.newPointSource = .ok s →
        lib.generateUniform s wavelengths m "ABmag" = .ok s2 →
        lib.newPhotometry tel s2 bkg = .ok p →
        lib.useOptimalAperture p true = .error e →
        step lib tel bkg m acc = .error e) ∧
      (∀ s s2 p p2, lib.newPointSource = .ok s →
        lib.generateUniform s wavelengths m "ABmag" = .ok s2 →
        lib.newPhotometry tel s2 bkg = .ok p →
        lib.useOptimalAperture p true = .ok p2 →
        lib.calcSnrOrT p2 5 REDDENING true = .error e →
        step lib tel bkg m acc = .error e) ∧
      (∀ s s2 p p2 t5, lib.newPointSource = .ok s →
        lib.generateUniform s wavelengths m "ABmag" = .ok s2 →
        lib.newPhotometry tel s2 bkg = .ok p →
        lib.useOptimalAperture p true = .ok p2 →
        lib.calcSnrOrT p2 5 REDDENING true = .ok t5 →
        lib.calcSnrOrT p2 10 REDDENING true = .error e →
        step lib tel bkg m acc = .error e)) ∧
    (∀ tel bkg bkg2 pre m post acc,
      lib.newTelescope = .ok tel → lib.newBackground = .ok bkg →
      lib.addGeocoronalEmission bkg "avg" = .ok bkg2 →
      AB_MAGS = pre ++ m :: post →
      runMags lib tel bkg2 pre (tblInit ρ) = .ok acc →
      step lib tel bkg2 m acc = .error e →
      runBatch lib = .error e) ∧
    (runBatch lib = .error e → ∀ t : Tbl ρ, runBatch lib ≠ .ok t) := by
  refine ⟨?_, ?_, ?_, ?_, ?_, ?_⟩
  · intro h
    rw [runBatch_shape, h, error_bind]
  · intro tel htel h
    rw [runBatch_shape, htel, ok_bind, h, error_bind]
  · intro tel bkg htel hbkg h
    rw [runBatch_shape, htel, ok_bind, hbkg, ok_bind, h, error_bind]
  · intro tel bkg m acc
    refine ⟨?_, ?_, ?_, ?_, ?_, ?_⟩
    · intro h
      rw [step_shape, h, error_bind]
    · intro s hs h
      rw [step_shape, hs, ok_bind, h, error_bind]
    · intro s s2 hs hs2 h
      rw [step_shape, hs, ok_bind, hs2, ok_bind, h, error_bind]
    · intro s s2 p hs hs2 hp h
      rw [step_shape, hs, ok_bind, hs2, ok_bind, hp, ok_bind, h, error_bind]
    · intro s s2 p p2 hs hs2 hp hp2 h
      rw [step_shape, hs, ok_bind, hs2, ok_bind, hp, ok_bind, hp2, ok_bind,
        runSnrs_two, h, error_bind]
    · intro s s2 p p2 t5 hs hs2 hp hp2 h5 h
      rw [step_shape, hs, ok_bind, hs2, ok_bind, hp, ok_bind, hp2, ok_bind,
        runSnrs_two, h5, ok_bind, h, error_bind]
  · intro tel bkg bkg2 pre m post acc htel hbkg hgeo hsplit hpre hstep
    rw [runBatch_shape, htel, ok_bind, hbkg, ok_bind, hgeo, ok_bind, hsplit,
      runMags_append lib tel bkg2 pre (m :: post) (tblInit ρ) acc hpre,
      runMags_cons, hstep, error_bind]
  · intro h t hok
    rw [h] at hok
    exact absurd hok (by simp)

/-- C2 witness: with an interface whose `calc_snr_or_t` raises, the batch
raises that error at the first magnitude. -/
theorem claim2_witness : runBatch libFail = .error () :=
  (claim2_errors_propagate_unchanged libFail ()).2.2.2.2.1 () () ()
    [] ((220 + ((0 : ℕ) : ℚ)) / 10) AB_MAGS.tail (tblInit ℚ)
    rfl rfl rfl rfl rfl rfl

set_option maxRecDepth 1000000 in
/-- C3: the batch program — whose loops range over the statically fixed
lists `AB_MAGS` and `TARGET_SNRS` — is extensionally equal (indeed
definitionally, for every interface) to its full unrolling, the branch-free,
loop-free straight-line program `unrolledBatch`. -/
theorem claim3_batch_equals_full_unrolling (lib : ETC ε τ β σ φ ρ) :
    runBatch lib = unrolledBatch lib := rfl

/-- Congruence of the inner S/N loop: it calls the library only at the S/N
values of its list. -/
theorem runSnrs_congr (L1 L2 : ETC ε τ β σ φ ρ) (p : φ) (m : ℚ)
    (h8 : ∀ snr, snr ∈ TARGET_SNRS →
      L1.calcSnrOrT p snr REDDENING true = L2.calcSnrOrT p snr REDDENING true) :
    ∀ (snrs : List ℕ), (∀ snr ∈ snrs, snr ∈ TARGET_SNRS) →
      ∀ acc, runSnrs L1 p m snrs acc = runSnrs L2 p m snrs acc := by
  intro snrs
  induction snrs with
  | nil => intro _ acc; rfl
  | cons snr rest ih =>
    intro hsub acc
    show (L1.calcSnrOrT p snr REDDENING true >>= fun t =>
        runSnrs L1 p m rest (tblSet acc snr m t)) =
      (L2.calcSnrOrT p snr REDDENING true >>= fun t =>
        runSnrs L2 p m rest (tblSet acc snr m t))
    rw [h8 snr (hsub snr (by simp))]
    exact bind_congr_fun _ _ _
      (fun t => ih (fun s hs => hsub s (by simp [hs])) (tblSet acc snr m t))

/-- Congruence of a loop body: it calls the library only with the loop's own
argument shapes. -/
theorem step_congr (L1 L2 : ETC ε τ β σ φ ρ) (tel : τ) (bkg : β) (m : ℚ)
    (acc : Tbl ρ)
    (h4 : L1.newPointSource = L2.newPointSource)
    (h5 : ∀ s, L1.generateUniform s wavelengths m "ABmag"
      = L2.generateUniform s wavelengths m "ABmag")
    (h6 : ∀ s, L1.newPhotometry tel s bkg = L2.newPhotometry tel s bkg)
    (h7 : ∀ p, L1.useOptimalAperture p true = L2.useOptimalAperture p true)
    (h8 : ∀ p snr, snr ∈ TARGET_SNRS →
      L1.calcSnrOrT p snr REDDENING true
        = L2.calcSnrOrT p snr REDDENING true) :
    step L1 tel bkg m acc = step L2 tel bkg m acc := by
  rw [step_shape, step_shape, h4]
  refine bind_congr_fun _ _ _ (fun s => ?_)
  rw [h5 s]
  refine bind_congr_fun _ _ _ (fun s2 => ?_)
  rw [h6 s2]
  refine bind_congr_fun _ _ _ (fun p => ?_)
  rw [h7 p]
  refine bind_congr_fun _ _ _ (fun p2 => ?_)
  exact runSnrs_congr L1 L2 p2 m (h8 p2) TARGET_SNRS (fun _ h => h) acc

/-- Congruence of the magnitude loop. -/
theorem runMags_congr (L1 L2 : ETC ε τ β σ φ ρ) (tel : τ) (bkg : β)
    (h4 : L1.newPointSource = L2.newPointSource)
    (h5 : ∀ s m, m ∈ AB_MAGS → L1.generateUniform s wavelengths m "ABmag"
      = L2.generateUniform s wavelengths m "ABmag")
    (h6 : ∀ s, L1.newPhotometry tel s bkg = L2.newPhotometry tel s bkg)
    (h7 : ∀ p, L1.useOptimalAperture p true = L2.useOptimalAperture p true)
    (h8 : ∀ p snr, snr ∈ TARGET_SNRS →
      L1.calcSnrOrT p snr REDDENING true
        = L2.calcSnrOrT p snr REDDENING true) :
    ∀ (ms : List ℚ), (∀ m ∈ ms, m ∈ AB_MAGS) →
      ∀ acc, runMags L1 tel bkg ms acc = runMags L2 tel bkg ms acc := by
  intro ms
  induction ms with
  | nil => intro _ acc; rfl
  | cons m rest ih =>
    intro hsub acc
    rw [runMags_cons, runMags_cons,
      step_congr L1 L2 tel bkg m acc h4 (fun s => h5 s m (hsub m (by simp)))
        h6 h7 h8]
    exact bind_congr_fun _ _ _
      (fun acc2 => ih (fun m' hm' => hsub m' (by simp [hm'])) acc2)

/-- C4: the batch computation is deterministic: two interfaces that return
the same responses to the calls the notebook makes (its fixed argument
shapes) yield identical `times_to_reach_snrs` tables and identical displayed
output. -/
theorem claim4_deterministic_replay (L1 L2 : ETC ε τ β σ φ ρ)
    (round2 : ρ → ρ)
    (h1 : L1.newTelescope = L2.newTelescope)
    (h2 : L1.newBackground = L2.newBackground)
    (h3 : ∀ b, L1.addGeocoronalEmission b "avg"
      = L2.addGeocoronalEmission b "avg")
    (h4 : L1.newPointSource = L2.newPointSource)
    (h5 : ∀ s m, m ∈ AB_MAGS → L1.generateUniform s wavelengths m "ABmag"
      = L2.generateUniform s wavelengths m "ABmag")
    (h6 : ∀ tel s b, L1.newPhotometry tel s b = L2.newPhotometry tel s b)
    (h7 : ∀ p, L1.useOptimalAperture p true = L2.useOptimalAperture p true)
    (h8 : ∀ p snr, snr ∈ TARGET_SNRS →
      L1.calcSnrOrT p snr REDDENING true
        = L2.calcSnrOrT p snr REDDENING true) :
    runBatch L1 = runBatch L2 ∧ runAll L1 round2 = runAll L2 round2 := by
  have hb : runBatch L1 = runBatch L2 := by
    rw [runBatch_shape, runBatch_shape, h1]
    refine bind_congr_fun _ _ _ (fun tel => ?_)
    rw [h2]
    refine bind_congr_fun _ _ _ (fun bkg => ?_)
    rw [h3 bkg]
    refine bind_congr_fun _ _ _ (fun bkg2 => ?_)
    exact runMags_congr L1 L2 tel bkg2 h4 h5 (fun s => h6 tel s bkg2) h7 h8
      AB_MAGS (fun _ h => h) (tblInit ρ)
  refine ⟨hb, ?_⟩
  show (runBatch L1 >>= fun t => Except.ok (t, displayCell round2 t)) =
    (runBatch L2 >>= fun t => Except.ok (t, displayCell round2 t))
  rw [hb]

/-- C4 witness: `libA` and `libB` differ only on calls the notebook never
makes (a reddening other than 0.09), and replaying the batch on either gives
identical tables and identical display output. -/
theorem claim4_witness :
    runBatch libA = runBatch libB ∧ runAll libA id = runAll libB id :=
  claim4_deterministic_replay libA libB id rfl rfl (fun _ => rfl) rfl
    (fun _ _ _ => rfl) (fun _ _ _ => rfl) (fun _ => rfl)
    (fun _ _ _ => by simp [libA, libB])

/-- The notebook's effect trace is empty when the batch raised, and is the
display cell's trace over the final table when it completed. -/
theorem notebookEffects_shape (lib : ETC ε τ β σ φ ρ) (round2 : ρ → ρ) :
    notebookEffects lib round2 = [] ∨
    ∃ t, runBatch lib = .ok t ∧
      notebookEffects lib round2 = displayCell round2 t := by
  unfold notebookEffects runAll
  cases h : runBatch lib with
  | error e => exact Or.inl rfl
  | ok t => exact Or.inr ⟨t, rfl, rfl⟩

/-- C6: the notebook persists no state outside the process: its observable
effects are exactly header prints and displayed frames — in particular it
never writes a file. -/
theorem claim6_no_persisted_state (lib : ETC ε τ β σ φ ρ) (round2 : ρ → ρ) :
    (∀ ev ∈ notebookEffects lib round2,
      (∃ s, ev = Eff.printLine s) ∨
      (∃ rows b, ev = Eff.displayFrame rows b)) ∧
    (∀ path contents,
      Eff.writeFile path contents ∉ notebookEffects lib round2) := by
  have hmain : ∀ ev ∈ notebookEffects lib round2,
      (∃ s, ev = Eff.printLine s) ∨
      (∃ rows b, ev = Eff.displayFrame rows b) := by
    intro ev hev
    rcases notebookEffects_shape lib round2 with h | ⟨t, _, h⟩
    · rw [h] at hev
      simp at hev
    · rw [h, displayCell_eq] at hev
      simp only [List.mem_cons, List.not_mem_nil, or_false] at hev
      rcases hev with h1 | h1 | h1 | h1 <;> subst h1
      · exact Or.inl ⟨_, rfl⟩
      · exact Or.inr ⟨_, _, rfl⟩
      · exact Or.inl ⟨_, rfl⟩
      · exact Or.inr ⟨_, _, rfl⟩
  refine ⟨hmain, fun path contents hmem => ?_⟩
  rcases hmain _ hmem with ⟨s, h⟩ | ⟨rows, b, h⟩ <;> exact absurd h (by simp)

/-- C6 witness: on the concrete interface `lib0` the run writes no file. -/
theorem claim6_witness :
    Eff.writeFile "out.csv" "data" ∉ notebookEffects lib0 id :=
  (claim6_no_persisted_state lib0 id).2 "out.csv" "data"

/-! ## The traced program computes the same results as the plain one -/

theorem runSnrsT_fst (lib : ETC ε τ β σ φ ρ) (p : φ) (m : ℚ) :
    ∀ (snrs : List ℕ) (acc : Tbl ρ),
      (runSnrsT lib p m snrs acc).1 = runSnrs lib p m snrs acc := by
  intro snrs
  induction snrs with
  | nil => intro acc; rfl
  | cons snr rest ih =>
    intro acc
    unfold runSnrsT runSnrs
    cases h : lib.calcSnrOrT p snr REDDENING true with
    | error e => rfl
    | ok t => exact ih (tblSet acc snr m t)

theorem stepT_fst (lib : ETC ε τ β σ φ ρ) (tel : τ) (bkg : β) (m : ℚ)
    (acc : Tbl ρ) : (stepT lib tel bkg m acc).1 = step lib tel bkg m acc := by
  rw [step_shape]
  cases h1 : lib.newPointSource with
  | error e => simp [stepT, h1, error_bind]
  | ok s =>
    cases h2 : lib.generateUniform s wavelengths m "ABmag" with
    | error e => simp [stepT, h1, h2, ok_bind, error_bind]
    | ok s2 =>
      cases h3 : lib.newPhotometry tel s2 bkg with
      | error e => simp [stepT, h1, h2, h3, ok_bind, error_bind]
      | ok p =>
        cases h4 : lib.useOptimalAperture p true with
        | error e => simp [stepT, h1, h2, h3, h4, ok_bind, error_bind]
        | ok p2 =>
          simp only [stepT, h1, h2, h3, h4, ok_bind]
          exact runSnrsT_fst lib p2 m TARGET_SNRS acc

theorem runMagsT_fst (lib : ETC ε τ β σ φ ρ) (tel : τ) (bkg : β) :
    ∀ (ms : List ℚ) (acc : Tbl ρ),
      (runMagsT lib tel bkg ms acc).1 = runMags lib tel bkg ms acc := by
  intro ms
  induction ms with
  | nil => intro acc; rfl
  | cons m rest ih =>
    intro acc
    rw [runMags_cons, ← stepT_fst lib tel bkg m acc]
    rcases hs : stepT lib tel bkg m acc with ⟨res, tr⟩
    cases res with
    | error e => simp [runMagsT, hs, error_bind]
    | ok acc2 =>
      simp only [runMagsT, hs, ok_bind]
      exact ih acc2

/-- The traced batch program computes exactly the plain batch program's
result. -/
theorem runBatchT_fst (lib : ETC ε τ β σ φ ρ) :
    (runBatchT lib).1 = runBatch lib := by
  rw [runBatch_shape]
  cases h1 : lib.newTelescope with
  | error e => simp [runBatchT, h1, error_bind]
  | ok tel =>
    cases h2 : lib.newBackground with
    | error e => simp [runBatchT, h1, h2, ok_bind, error_bind]
    | ok bkg =>
      cases h3 : lib.addGeocoronalEmission bkg "avg" with
      | error e => simp [runBatchT, h1, h2, h3, ok_bind, error_bind]
      | ok bkg2 =>
        simp only [runBatchT, h1, h2, h3, ok_bind]
        exact runMagsT_fst lib tel bkg2 AB_MAGS (tblInit ρ)

/-! ## What the loop's call trace can contain -/

theorem runSnrsT_trace (lib : ETC ε τ β σ φ ρ) (p : φ) (m : ℚ) :
    ∀ (snrs : List ℕ) (acc : Tbl ρ), ∀ ev ∈ (runSnrsT lib p m snrs acc).2,
      ∃ snr, ev = CallEv.calcSnrOrT p snr REDDENING true := by
  intro snrs
  induction snrs with
  | nil =>
    intro acc ev hev
    simp [runSnrsT] at hev
  | cons snr rest ih =>
    intro acc ev hev
    cases h : lib.calcSnrOrT p snr REDDENING true with
    | error e =>
      simp [runSnrsT, h] at hev
      exact ⟨snr, hev⟩
    | ok t =>
      simp only [runSnrsT, h, List.mem_cons] at hev
      rcases hev with h1 | h1
      · exact ⟨snr, h1⟩
      · exact ih (tblSet acc snr m t) ev h1

/-- Every call a loop body issues is a source/photometry-pipeline call: never
a telescope or background construction nor a geocoronal addition, and any
photometry construction uses exactly the shared telescope and background. -/
theorem stepT_trace (lib : ETC ε τ β σ φ ρ) (tel : τ) (bkg : β) (m : ℚ)
    (acc : Tbl ρ) : ∀ ev ∈ (stepT lib tel bkg m acc).2,
      ev.isNewTelescope = false ∧ ev.isNewBackground = false ∧
      ev.isAddGeocoronal = false ∧
      ∀ tel' s b, ev = CallEv.newPhotometry tel' s b →
        tel' = tel ∧ b = bkg := by
  intro ev hev
  cases h1 : lib.newPointSource with
  | error e =>
    simp [stepT, h1] at hev
    subst hev
    exact ⟨rfl, rfl, rfl, fun tel' s b h => by simp at h⟩
  | ok s =>
    cases h2 : lib.generateUniform s wavelengths m "ABmag" with
    | error e =>
      simp only [stepT, h1, h2, List.mem_cons, List.not_mem_nil,
        or_false] at hev
      rcases hev with h | h <;> subst h
      · exact ⟨rfl, rfl, rfl, fun tel' s' b h => by simp at h⟩
      · exact ⟨rfl, rfl, rfl, fun tel' s' b h => by simp at h⟩
    | ok s2 =>
      cases h3 : lib.newPhotometry tel s2 bkg with
      | error e =>
        simp only [stepT, h1, h2, h3, List.mem_cons, List.not_mem_nil,
          or_false] at hev
        rcases hev with h | h | h <;> subst h
        · exact ⟨rfl, rfl, rfl, fun tel' s' b h => by simp at h⟩
        · exact ⟨rfl, rfl, rfl, fun tel' s' b h => by simp at h⟩
        · refine ⟨rfl, rfl, rfl, fun tel' s' b h => ?_⟩
          injection h with ha hb hc
          exact ⟨ha.symm, hc.symm⟩
      | ok p =>
        cases h4 : lib.useOptimalAperture p true with
        | error e =>
          simp only [stepT, h1, h2, h3, h4, List.mem_cons, List.not_mem_nil,
            or_false] at hev
          rcases hev with h | h | h | h <;> subst h
          · exact ⟨rfl, rfl, rfl, fun tel' s' b h => by simp at h⟩
          · exact ⟨rfl, rfl, rfl, fun tel' s' b h => by simp at h⟩
          · refine ⟨rfl, rfl, rfl, fun tel' s' b h => ?_⟩
            injection h with ha hb hc
            exact ⟨ha.symm, hc.symm⟩
          · exact ⟨rfl, rfl, rfl, fun tel' s' b h => by simp at h⟩
        | ok p2 =>
          simp only [stepT, h1, h2, h3, h4, List.mem_cons] at hev
          rcases hev with h | h | h | h | h
          · subst h
            exact ⟨rfl, rfl, rfl, fun tel' s' b h => by simp at h⟩
          · subst h
            exact ⟨rfl, rfl, rfl, fun tel' s' b h => by simp at h⟩
          · subst h
            refine ⟨rfl, rfl, rfl, fun tel' s' b h => ?_⟩
            injection h with ha hb hc
            exact ⟨ha.symm, hc.symm⟩
          · subst h
            exact ⟨rfl, rfl, rfl, fun tel' s' b h => by simp at h⟩
          · obtain ⟨snr, rfl⟩ :=
              runSnrsT_trace lib p2 m TARGET_SNRS acc ev h
            exact ⟨rfl, rfl, rfl, fun tel' s' b h => by simp at h⟩

/-- The whole loop's trace satisfies the loop-body property. -/
theorem runMagsT_trace (lib : ETC ε τ β σ φ ρ) (tel : τ) (bkg : β) :
    ∀ (ms : List ℚ) (acc : Tbl ρ), ∀ ev ∈ (runMagsT lib tel bkg ms acc).2,
      ev.isNewTelescope = false ∧ ev.isNewBackground = false ∧
      ev.isAddGeocoronal = false ∧
      ∀ tel' s b, ev = CallEv.newPhotometry tel' s b →
        tel' = tel ∧ b = bkg := by
  intro ms
  induction ms with
  | nil =>
    intro acc ev hev
    simp [runMagsT] at hev
  | cons m rest ih =>
    intro acc ev hev
    rcases hs : stepT lib tel bkg m acc with ⟨res, tr⟩
    have htr : ∀ ev ∈ tr, ev.isNewTelescope = false ∧
        ev.isNewBackground = false ∧ ev.isAddGeocoronal = false ∧
        ∀ tel' s b, ev = CallEv.newPhotometry tel' s b →
          tel' = tel ∧ b = bkg := by
      intro ev' hev'
      refine stepT_trace lib tel bkg m acc ev' ?_
      rw [hs]
      exact hev'
    cases res with
    | error e =>
      simp only [runMagsT, hs] at hev
      exact htr ev hev
    | ok acc2 =>
      simp only [runMagsT, hs, List.mem_append] at hev
      rcases hev with h | h
      · exact htr ev h
      · exact ih acc2 ev h

/-- C7: one telescope and one background are constructed, geocoronal emission
is added exactly once (before the loop), and every photometry object in the
loop is built from those same two objects; the loop never constructs or
mutates a telescope or background. -/
theorem claim7_shared_telescope_and_background (lib : ETC ε τ β σ φ ρ)
    (tel : τ) (bkg bkg2 : β)
    (h1 : lib.newTelescope = .ok tel) (h2 : lib.newBackground = .ok bkg)
    (h3 : lib.addGeocoronalEmission bkg "avg" = .ok bkg2) :
    ∃ loopTr,
      (runBatchT lib).2 = CallEv.newTelescope :: CallEv.newBackground ::
        CallEv.addGeocoronalEmission bkg "avg" :: loopTr ∧
      (∀ ev ∈ loopTr,
        ev.isNewTelescope = false ∧ ev.isNewBackground = false ∧
        ev.isAddGeocoronal = false ∧
        ∀ tel' s b, ev = CallEv.newPhotometry tel' s b →
          tel' = tel ∧ b = bkg2) ∧
      (runBatchT lib).2.countP CallEv.isNewTelescope = 1 ∧
      (runBatchT lib).2.countP CallEv.isNewBackground = 1 ∧
      (runBatchT lib).2.countP CallEv.isAddGeocoronal = 1 := by
  have hshape : (runBatchT lib).2 =
      CallEv.newTelescope :: CallEv.newBackground ::
        CallEv.addGeocoronalEmission bkg "avg" ::
        (runMagsT lib tel bkg2 AB_MAGS (tblInit ρ)).2 := by
    simp [runBatchT, h1, h2, h3]
  have hloop := runMagsT_trace lib tel bkg2 AB_MAGS (tblInit ρ)

  refine ⟨(runMagsT lib tel bkg2 AB_MAGS (tblInit ρ)).2, hshape, hloop,
    ?_, ?_, ?_⟩
  · rw [hshape]
    simp only [List.countP_cons]
    rw [List.countP_eq_zero.mpr (fun ev hev => by simp [(hloop ev hev).1])]
    rfl
  · rw [hshape]
    simp only [List.countP_cons]
    rw [List.countP_eq_zero.mpr (fun ev hev => by simp [(hloop ev hev).2.1])]
    rfl
  · rw [hshape]
    simp only [List.countP_cons]
    rw [List.countP_eq_zero.mpr
      (fun ev hev => by simp [(hloop ev hev).2.2.1])]
    rfl

/-- C7 witness: the trace decomposition on the concrete interface `lib0`. -/
theorem claim7_witness :
    ∃ loopTr,
      (runBatchT lib0).2 = CallEv.newTelescope :: CallEv.newBackground ::
        CallEv.addGeocoronalEmission () "avg" :: loopTr ∧
      (∀ ev ∈ loopTr,
        ev.isNewTelescope = false ∧ ev.isNewBackground = false ∧
        ev.isAddGeocoronal = false ∧
        ∀ tel' s b, ev = CallEv.newPhotometry tel' s b →
          tel' = () ∧ b = ()) ∧
      (runBatchT lib0).2.countP CallEv.isNewTelescope = 1 ∧
      (runBatchT lib0).2.countP CallEv.isNewBackground = 1 ∧
      (runBatchT lib0).2.countP CallEv.isAddGeocoronal = 1 :=
  claim7_shared_telescope_and_background lib0 () () () rfl rfl rfl

/-- C8: the two inner dictionaries of `times_to_reach_snrs` are distinct heap
cells (so a store under one target S/N never changes the other's table), both
are initialised by `dict.fromkeys(AB_MAGS)` to `None` at every magnitude, the
key set `AB_MAGS` is preserved by every store of the loop, and when the batch
completes no entry is still `None`. -/
theorem claim8_tables_disjoint_and_complete (lib : ETC ε τ β σ φ ρ) :
    ((tblInit ρ).outer = [(5, 0), (10, 1)]) ∧
    (∀ r5 r10, dictGet (tblInit ρ).outer 5 = some r5 →
      dictGet (tblInit ρ).outer 10 = some r10 → r5 ≠ r10) ∧
    (∀ t : Tbl ρ, wfK AB_MAGS t → ∀ snr snr' m m' v, snr ∈ TARGET_SNRS →
      snr' ∈ TARGET_SNRS → snr ≠ snr' →
      tblGet (tblSet t snr m v) snr' m' = tblGet t snr' m') ∧
    (wfK AB_MAGS (tblInit ρ) ∧
      ∀ snr, snr ∈ TARGET_SNRS → ∀ m, m ∈ AB_MAGS →
        tblGet (tblInit ρ) snr m = some none) ∧
    (∀ t : Tbl ρ, wfK AB_MAGS t → ∀ snr m v, snr ∈ TARGET_SNRS →
      m ∈ AB_MAGS → wfK AB_MAGS (tblSet t snr m v)) ∧
    (∀ (tel : τ) (bkg : β) ms acc t, wfK AB_MAGS acc →
      (∀ m ∈ ms, m ∈ AB_MAGS) → runMags lib tel bkg ms acc = .ok t →
      wfK AB_MAGS t) ∧
    (∀ t, runBatch lib = .ok t → ∀ snr, snr ∈ TARGET_SNRS →
      ∀ m, m ∈ AB_MAGS → ∃ v, tblGet t snr m = some (some v)) := by
  refine ⟨rfl, ?_, ?_, ⟨wfK_initFor AB_MAGS, ?_⟩, ?_, ?_, ?_⟩
  · intro r5 r10 h5 h10
    have e5 : r5 = 0 := by
      rw [show (tblInit ρ).outer = [(5, 0), (10, 1)] from rfl] at h5
      simp [dictGet] at h5
      exact h5.symm
    have e10 : r10 = 1 := by
      rw [show (tblInit ρ).outer = [(5, 0), (10, 1)] from rfl] at h10
      simp [dictGet] at h10
      exact h10.symm
    rw [e5, e10]
    decide
  · intro t hwf snr snr' m m' v hsnr hsnr' hne
    exact tblGet_tblSet_ne_snr AB_MAGS t snr snr' m m' v hwf hsnr hsnr' hne
  · intro snr hsnr m hm
    rcases (mem_target_snrs snr).mp hsnr with h | h <;> subst h
    · rw [show tblInit ρ = ⟨[(5, 0), (10, 1)],
        [dictFromkeys AB_MAGS, dictFromkeys AB_MAGS]⟩ from rfl, tblGet_five]
      exact dictGet_dictFromkeys AB_MAGS m hm
    · rw [show tblInit ρ = ⟨[(5, 0), (10, 1)],
        [dictFromkeys AB_MAGS, dictFromkeys AB_MAGS]⟩ from rfl, tblGet_ten]
      exact dictGet_dictFromkeys AB_MAGS m hm
  · intro t hwf snr m v hsnr hm
    exact wfK_tblSet AB_MAGS t snr m v hwf hsnr hm
  · intro tel bkg ms acc t hwf hsub hrun
    exact (runMags_ok_spec lib tel bkg AB_MAGS ms acc t hwf hsub hrun).1
  · intro t h snr hsnr m hm
    obtain ⟨tel, bkg, bkg2, _, _, _, hloop⟩ := (runBatch_ok_iff lib t).mp h
    obtain ⟨_, hspec⟩ := runMags_ok_spec lib tel bkg2 AB_MAGS AB_MAGS
      (tblInit ρ) t (wfK_initFor AB_MAGS) (fun _ hm' => hm') hloop
    obtain ⟨v, _, hget⟩ := (hspec snr hsnr m).1 hm
    exact ⟨v, hget⟩

/-- C8 witness: on the initial table, storing 7 s under S/N 5 at magnitude 22
does not change what S/N 10's table holds at magnitude 22. -/
theorem claim8_witness :
    tblGet (tblSet (tblInit ℚ) 5 22 7) 10 22 = tblGet (tblInit ℚ) 10 22 :=
  (claim8_tables_disjoint_and_complete lib0).2.2.1 (tblInit ℚ)
    (wfK_initFor AB_MAGS) 5 10 22 22 7 (by decide) (by decide) (by decide)

end ETCNB
